import Mathlib

/-!
Verification development for the authentication views of the
airavata-django-portal repository (`django_airavata/apps/auth/views.py`).

The handlers are embedded as pure Lean functions.  External collaborators
(the IAM admin client, template rendering, e-mail dispatch, OAuth2 session)
are passed in as an explicit `Env` of functions, each fallible call
returning `Except PyExc`.  The Django ORM store of `EmailVerification`
rows is an explicit list threaded through the handlers, and every
side effect (IAM enable calls, dispatched e-mails, user-facing messages,
the final redirect or rendered page) is returned in a result structure.
-/

namespace AiravataAuth

/-- A Python exception value as observed by the `except` clauses in
views.py: whether it is (a subclass of) `ObjectDoesNotExist`, its `str()`
rendering, and its `.message` attribute when the exception object has one
(Python 3 exceptions in general do not carry `.message`). -/
structure PyExc where
  isObjectDoesNotExist : Bool
  str : String
  messageAttr : Option String
deriving Repr, DecidableEq

/-- The `AttributeError` raised by evaluating `e.message` on an exception
object that has no `message` attribute. -/
def attributeError : PyExc :=
  { isObjectDoesNotExist := false
    str := "'Exception' object has no attribute 'message'"
    messageAttr := none }

/-- The `Exception("idp_alias is not valid")` raised by `_validate_idp_alias`. -/
def invalidIdpAliasError : PyExc :=
  { isObjectDoesNotExist := false
    str := "idp_alias is not valid"
    messageAttr := none }

/-- The `IndexError` raised by `user_profile.emails[0]` when the profile
has no e-mail addresses. -/
def indexError : PyExc :=
  { isObjectDoesNotExist := false
    str := "list index out of range"
    messageAttr := none }

/-- One entry of `settings.AUTHENTICATION_OPTIONS['external']`. -/
structure ExtOption where
  idp_alias : String
  name : String
deriving Repr, DecidableEq

/-- The Django settings consulted by the auth views. -/
structure Settings where
  external_options : List ExtOption
  PORTAL_TITLE : String
  GATEWAY_ID : String
  SERVER_EMAIL : String
  ADMINS : List (String × String)
  LOGIN_REDIRECT_URL : String
  KEYCLOAK_CLIENT_ID : String
  KEYCLOAK_AUTHORIZE_URL : String
deriving Repr, DecidableEq

/-- A `models.EmailVerification` row: owner username, the unique lookup
code, and the verified flag. -/
structure EmailVerification where
  username : String
  verification_code : String
  verified : Bool
deriving Repr, DecidableEq

/-- A `models.EmailTemplate` row: a subject template string and an HTML
body template string. -/
structure EmailTemplate where
  subject : String
  body : String
deriving Repr, DecidableEq

/-- The IAM user profile returned by `iam_admin_client.get_user`. -/
structure UserProfile where
  emails : List String
  firstName : String
  lastName : String
deriving Repr, DecidableEq

/-- A dispatched `EmailMessage`: subject, HTML body, from address and
recipient list (the constructor's `to` keyword argument, renamed because
`to` is reserved in Lean). -/
structure Email where
  subject : String
  body : String
  from_email : String
  to_addrs : List String
deriving Repr, DecidableEq

/-- A user-facing message recorded via `django.contrib.messages`. -/
inductive Message where
  | success (text : String)
  | error (text : String)
deriving Repr, DecidableEq

/-- The outcome of a request handler: an HTTP redirect to a route, a
rendered page, or an exception escaping the handler (Django then serves a
server-error page). -/
inductive Response where
  | redirect (url : String)
  | page (template : String)
  | serverError (e : PyExc)
deriving Repr, DecidableEq

/-- External collaborators of the auth views.  Each fallible call either
returns a value or raises a `PyExc`.  `render t ctx` is
`Template(t).render(Context(ctx))`; `verification_uri code` is
`request.build_absolute_uri(reverse('verify_email', code))`;
`authorization_url base redirect_uri` is
`OAuth2Session(...).authorization_url(base)` returning the URL and the
random `state`; `authenticate` is the per-request outcome of
`django.contrib.auth.authenticate(request=request)` on the OAuth2
callback, `.ok none` when it returns `None`. -/
structure Env where
  register_user : String → String → String → String → String → Except PyExc Bool
  is_user_exist : String → Except PyExc Bool
  is_user_enabled : String → Except PyExc Bool
  enable_user : String → Except PyExc Unit
  get_user : String → Except PyExc UserProfile
  verify_email_template : Except PyExc EmailTemplate
  new_user_email_template : Except PyExc EmailTemplate
  send_email : Email → Except PyExc Unit
  render : String → List (String × String) → String
  verification_uri : String → String
  callback_uri : String
  urlquote : String → String
  authorization_url : String → String → String × String
  authenticate : Except PyExc (Option String)

/-- `models.EmailVerification.objects.get(verification_code=code)`:
lookup by the unique code (`none` models the `ObjectDoesNotExist` raise). -/
def lookupByCode (store : List EmailVerification) (code : String) :
    Option EmailVerification :=
  store.find? (fun r => r.verification_code == code)

/-- `email_verification.verified = True; email_verification.save()`:
persist the verified flag on the row(s) carrying `code`. -/
def setVerified (store : List EmailVerification) (code : String) :
    List EmailVerification :=
  store.map (fun r =>
    if r.verification_code == code then { r with verified := true } else r)

/-- Route names used as redirect targets (`reverse(...)`). -/
def loginRoute : String := "django_airavata_auth:login"

def resendRoute : String := "django_airavata_auth:resend_email_link"

def createAccountRoute : String := "django_airavata_auth:create_account"

def callbackErrorRoute (idpAlias : String) : String :=
  "django_airavata_auth:callback-error:" ++ idpAlias

/-- views.py lines 187-190. -/
def alreadyCreatedMessage : String :=
  "Your account has already been successfully created. Please log in now."

/-- views.py lines 222-225. -/
def accountCreatedMessage : String :=
  "Your account has been successfully created. Please log in now."

/-- views.py lines 232-235 (`ObjectDoesNotExist` branch). -/
def verifyFailedResendMessage : String :=
  "Email verification failed. Please enter your username and we will send you another email verification link."

/-- views.py lines 239-242 (generic `except Exception` branch). -/
def verifyFailedRetryMessage : String :=
  "Email verification failed. Please try clicking the email verification link again later."

/-- The `Context` built in `verify_email` for the new-user e-mail,
views.py lines 203-211. -/
def new_user_email_context (s : Settings) (domain username email
    first_name last_name : String) : List (String × String) :=
  [("username", username),
   ("email", email),
   ("first_name", first_name),
   ("last_name", last_name),
   ("portal_title", s.PORTAL_TITLE),
   ("gateway_id", s.GATEWAY_ID),
   ("http_host", domain)]

/-- `"{} <{}>".format(settings.PORTAL_TITLE, settings.SERVER_EMAIL)`. -/
def fromEmail (s : Settings) : String :=
  s.PORTAL_TITLE ++ " <" ++ s.SERVER_EMAIL ++ ">"

/-- The admin-notification `EmailMessage` built in `verify_email`,
views.py lines 212-219. -/
def new_user_admin_email (env : Env) (s : Settings)
    (context : List (String × String)) (tmpl : EmailTemplate) : Email :=
  { subject := env.render tmpl.subject context
    body := env.render tmpl.body context
    from_email := fromEmail s
    to_addrs := s.ADMINS.map (fun a => a.2) }

/-- Result of one run of the `verify_email` handler: the store after the
request, the usernames passed to `iam_admin_client.enable_user`, the
e-mails dispatched, the messages recorded, and the HTTP response. -/
structure VerifyResult where
  store : List EmailVerification
  enable_calls : List String
  emails : List Email
  msgs : List Message
  response : Response
deriving Repr, DecidableEq

/-- The two `except` clauses of `verify_email` (views.py lines 227-243):
`ObjectDoesNotExist` redirects to the resend-link form, any other
exception redirects to the create-account page with a retry-later
message.  Effects accumulated before the raise are kept. -/
def verifyCatch (store : List EmailVerification) (calls : List String)
    (emails : List Email) (e : PyExc) : VerifyResult :=
  if e.isObjectDoesNotExist then
    { store := store, enable_calls := calls, emails := emails
      msgs := [.error verifyFailedResendMessage]
      response := .redirect resendRoute }
  else
    { store := store, enable_calls := calls, emails := emails
      msgs := [.error verifyFailedRetryMessage]
      response := .redirect createAccountRoute }

/-- The `verify_email(request, code)` handler, views.py lines 175-243.
`domain` is the domain part of `split_domain_port(request.get_host())`. -/
def verify_email (env : Env) (s : Settings) (domain : String)
    (store : List EmailVerification) (code : String) : VerifyResult :=
  match lookupByCode store code with
  | none =>
    -- `.get` raised ObjectDoesNotExist; nothing was mutated.
    verifyCatch store [] []
      { isObjectDoesNotExist := true
        str := "EmailVerification matching query does not exist."
        messageAttr := none }
  | some rec =>
    let store1 := setVerified store code
    let username := rec.username
    match env.is_user_enabled username with
    | .error e => verifyCatch store1 [] [] e
    | .ok true =>
      { store := store1, enable_calls := [], emails := []
        msgs := [.success alreadyCreatedMessage]
        response := .redirect loginRoute }
    | .ok false =>
      match env.enable_user username with
      | .error e => verifyCatch store1 [username] [] e
      | .ok _ =>
        match env.get_user username with
        | .error e => verifyCatch store1 [username] [] e
        | .ok user_profile =>
          match env.new_user_email_template with
          | .error e => verifyCatch store1 [username] [] e
          | .ok tmpl =>
            match user_profile.emails.head? with
            | none => verifyCatch store1 [username] [] indexError
            | some email_address =>
              let context := new_user_email_context s domain username
                email_address user_profile.firstName user_profile.lastName
              let msg := new_user_admin_email env s context tmpl
              match env.send_email msg with
              | .error e => verifyCatch store1 [username] [] e
              | .ok _ =>
                { store := store1, enable_calls := [username]
                  emails := [msg]
                  msgs := [.success accountCreatedMessage]
                  response := .redirect loginRoute }

/-- The `Context` built in `_create_and_send_email_verification_link`
for the verify-email message, views.py lines 302-309.  The key holding the
verification link is the literal string `"url"`. -/
def verify_email_link_context (s : Settings) (username email first_name
    last_name verification_uri : String) : List (String × String) :=
  [("username", username),
   ("email", email),
   ("first_name", first_name),
   ("last_name", last_name),
   ("portal_title", s.PORTAL_TITLE),
   ("url", verification_uri)]

/-- The verification-link `EmailMessage` built in
`_create_and_send_email_verification_link`, views.py lines 310-315. -/
def verify_link_email (env : Env) (s : Settings)
    (context : List (String × String)) (tmpl : EmailTemplate)
    (first_name last_name email : String) : Email :=
  { subject := env.render tmpl.subject context
    body := env.render tmpl.body context
    from_email := fromEmail s
    to_addrs := [first_name ++ " " ++ last_name ++ " <" ++ email ++ ">"] }

/-- Result of `_create_and_send_email_verification_link`: the store after
the call, the e-mails dispatched, and `.error e` when an exception
escaped the helper (the record saved before the raise is kept — there is
no rollback). -/
structure SendLinkResult where
  store : List EmailVerification
  emails : List Email
  outcome : Except PyExc Unit
deriving Repr

/-- `_create_and_send_email_verification_link(request, username, email,
first_name, last_name)`, views.py lines 286-317.

Modelled from the spec: the `EmailVerification` model (models.py, not
under src/) generates `verification_code` as a fresh unique token at
creation and defaults `verified` to false; the generated code is passed
here as the `freshCode` argument. -/
def create_and_send_email_verification_link (env : Env) (s : Settings)
    (store : List EmailVerification)
    (freshCode username email first_name last_name : String) :
    SendLinkResult :=
  let record : EmailVerification :=
    { username := username, verification_code := freshCode
      verified := false }
  let store1 := store ++ [record]
  let verification_uri := env.verification_uri freshCode
  match env.verify_email_template with
  | .error e => { store := store1, emails := [], outcome := .error e }
  | .ok tmpl =>
    let context := verify_email_link_context s username email first_name
      last_name verification_uri
    let msg := verify_link_email env s context tmpl first_name last_name email
    match env.send_email msg with
    | .error e => { store := store1, emails := [], outcome := .error e }
    | .ok _ => { store := store1, emails := [msg], outcome := .ok () }

/-- views.py lines 150-151. -/
def registerFailedError : String :=
  "Failed to register user with IAM service"

/-- views.py lines 156-160. -/
def accountRequestProcessedMessage : String :=
  "Account request processed successfully. Before you can login you need to confirm your email address. We've sent you an email with a link that you should click on to complete the account creation process."

/-- Result of one POST to the `create_account` handler with a valid form:
the store after the request, the usernames passed to
`iam_admin_client.register_user`, the e-mails dispatched, the messages
recorded, the errors attached to the form, and the HTTP response. -/
structure CreateAccountResult where
  store : List EmailVerification
  register_calls : List String
  emails : List Email
  msgs : List Message
  form_errors : List String
  response : Response
deriving Repr

/-- The POST branch of the `create_account(request)` handler with a valid
form, views.py lines 137-172.  The `except Exception as e` clause
(lines 163-166) evaluates `e.message`; on an exception object with no
`message` attribute this itself raises `AttributeError`, which escapes
the handler. -/
def create_account (env : Env) (s : Settings)
    (store : List EmailVerification)
    (freshCode username email first_name last_name password : String) :
    CreateAccountResult :=
  let caught := fun (st : List EmailVerification) (em : List Email)
      (e : PyExc) =>
    match e.messageAttr with
    | none =>
      -- `form.add_error(None, ValidationError(e.message))` raises
      -- AttributeError, so no error reaches the form and the request
      -- ends in a server error.
      { store := st, register_calls := [username], emails := em
        msgs := [], form_errors := []
        response := Response.serverError attributeError }
    | some m =>
      { store := st, register_calls := [username], emails := em
        msgs := [], form_errors := [m]
        response := Response.page "django_airavata_auth/create_account.html" }
  match env.register_user username email first_name last_name password with
  | .error e => caught store [] e
  | .ok false =>
    { store := store, register_calls := [username], emails := []
      msgs := [], form_errors := [registerFailedError]
      response := .page "django_airavata_auth/create_account.html" }
  | .ok true =>
    let r := create_and_send_email_verification_link env s store
      freshCode username email first_name last_name
    match r.outcome with
    | .error e => caught r.store r.emails e
    | .ok _ =>
      { store := r.store, register_calls := [username], emails := r.emails
        msgs := [.success accountRequestProcessedMessage], form_errors := []
        response := .redirect createAccountRoute }

/-- views.py lines 262-266. -/
def resendLinkSentMessage : String :=
  "Email verification link sent successfully. Please click on the link in the email that we sent to your email address."

/-- views.py lines 268-272. -/
def resendUserNotFoundError : String :=
  "Unable to resend email verification link. Please contact the website administrator for further assistance."

/-- Result of one POST to the `resend_email_link` handler with a valid
form. -/
structure ResendResult where
  store : List EmailVerification
  emails : List Email
  msgs : List Message
  form_errors : List String
  response : Response
deriving Repr

/-- The POST branch of the `resend_email_link(request)` handler with a
valid form, views.py lines 246-283.  Its `except Exception as e` clause
uses `ValidationError(str(e))`. -/
def resend_email_link (env : Env) (s : Settings)
    (store : List EmailVerification) (freshCode username : String) :
    ResendResult :=
  let caught := fun (st : List EmailVerification) (em : List Email)
      (e : PyExc) =>
    { store := st, emails := em, msgs := [], form_errors := [e.str]
      response := Response.page "django_airavata_auth/verify_email.html" }
  match env.is_user_exist username with
  | .error e => caught store [] e
  | .ok false =>
    { store := store, emails := [], msgs := [.error resendUserNotFoundError]
      form_errors := [], response := .redirect resendRoute }
  | .ok true =>
    match env.get_user username with
    | .error e => caught store [] e
    | .ok user_profile =>
      match user_profile.emails.head? with
      | none => caught store [] indexError
      | some email_address =>
        let r := create_and_send_email_verification_link env s store
          freshCode username email_address user_profile.firstName
          user_profile.lastName
        match r.outcome with
        | .error e => caught r.store r.emails e
        | .ok _ =>
          { store := r.store, emails := r.emails
            msgs := [.success resendLinkSentMessage], form_errors := []
            response := .redirect resendRoute }

/-- The OAuth2 values stashed in the Django session by `redirect_login`
(views.py lines 57-58). -/
structure Session where
  oauth2_state : Option String
  oauth2_redirect_uri : Option String
deriving Repr, DecidableEq

/-- `_validate_idp_alias(idp_alias)`, views.py lines 62-66: raises
`Exception("idp_alias is not valid")` when the alias is not among the
configured external options. -/
def validate_idp_alias (s : Settings) (idpAlias : String) :
    Except PyExc Unit :=
  let valid_idp_aliases := s.external_options.map (fun ext => ext.idp_alias)
  if idpAlias ∈ valid_idp_aliases then .ok () else .error invalidIdpAliasError

/-- Result of the `redirect_login` handler: the session after the request
and the HTTP response. -/
structure RedirectLoginResult where
  session : Session
  response : Response
deriving Repr, DecidableEq

/-- The `redirect_login(request, idp_alias)` handler, views.py lines
42-59.  The `Exception` raised by `_validate_idp_alias` is not caught,
so it escapes the handler before any authorization URL is constructed or
any session key is written. -/
def redirect_login (env : Env) (s : Settings) (session : Session)
    (idpAlias : String) (nextParam : Option String) : RedirectLoginResult :=
  match validate_idp_alias s idpAlias with
  | .error e => { session := session, response := .serverError e }
  | .ok _ =>
    let base_redirect_uri := env.callback_uri ++ "?idp_alias=" ++
      env.urlquote idpAlias
    let redirect_uri :=
      match nextParam with
      | some nxt => base_redirect_uri ++ "&next=" ++ env.urlquote nxt
      | none => base_redirect_uri
    let au := env.authorization_url s.KEYCLOAK_AUTHORIZE_URL redirect_uri
    let authorization_url := au.1 ++ "&kc_idp_hint=" ++ env.urlquote idpAlias
    { session :=
        { oauth2_state := some au.2
          oauth2_redirect_uri := some redirect_uri }
      response := .redirect authorization_url }

/-- Result of the `callback` handler. -/
structure CallbackResult where
  msgs : List Message
  response : Response
deriving Repr, DecidableEq

/-- The `callback(request)` handler, views.py lines 104-118.  When
`authenticate` raises, or returns `None` (so that `login(request, None)`
raises), the handler records an error message and redirects to the
callback-error page for the `idp_alias` query parameter. -/
def callback (env : Env) (s : Settings) (idpAlias : Option String)
    (nextParam : Option String) : CallbackResult :=
  let failure := fun (e : PyExc) =>
    { msgs := [Message.error
        ("Failed to process OAuth2 callback: " ++ e.str)]
      response :=
        Response.redirect (callbackErrorRoute (idpAlias.getD "None")) }
  match env.authenticate with
  | .error e => failure e
  | .ok none =>
    failure
      { isObjectDoesNotExist := false
        str := "'NoneType' object has no attribute 'get_session_auth_hash'"
        messageAttr := none }
  | .ok (some _) =>
    { msgs := []
      response := .redirect (nextParam.getD s.LOGIN_REDIRECT_URL) }

/-- The page rendered by `callback_error`: the alias and the filtered
`options` object. -/
structure CallbackErrorPage where
  idp_alias : String
  options_external : List ExtOption
deriving Repr, DecidableEq

/-- The `callback_error(request, idp_alias)` handler, views.py lines
121-134: validates the alias, then renders the error page with an
options object holding exactly the configured external entries whose
`idp_alias` equals the given alias. -/
def callback_error (s : Settings) (idpAlias : String) :
    Except PyExc CallbackErrorPage :=
  match validate_idp_alias s idpAlias with
  | .error e => .error e
  | .ok _ =>
    .ok { idp_alias := idpAlias
          options_external :=
            s.external_options.filter (fun ext => ext.idp_alias == idpAlias) }

/-! ### Store lemmas -/

/-- Every row carrying `code` in the store produced by `setVerified store
code` has its verified flag set. -/
theorem setVerified_verified (store : List EmailVerification) (code : String)
    (r : EmailVerification) (hr : r ∈ setVerified store code)
    (hc : r.verification_code = code) : r.verified = true := by
  simp only [setVerified, List.mem_map] at hr
  obtain ⟨a, _, rfl⟩ := hr
  by_cases h : a.verification_code == code
  · simp [h]
  · simp only [h, if_neg] at hc ⊢
    rw [if_neg (by simp [h])] at hc ⊢
    exact absurd (by simp [hc]) h

/-- `setVerified` does not change a row's code. -/
theorem setVerified_code (store : List EmailVerification) (code : String) :
    (setVerified store code).map (fun r => r.verification_code) =
      store.map (fun r => r.verification_code) := by
  simp only [setVerified, List.map_map]
  apply List.map_congr_left
  intro r _
  by_cases h : r.verification_code = code <;> simp [h]

/-- Looking up a code after `setVerified` on that code finds the same row
as before, with the verified flag set. -/
theorem lookupByCode_setVerified (store : List EmailVerification)
    (code : String) :
    lookupByCode (setVerified store code) code =
      (lookupByCode store code).map (fun r => { r with verified := true }) := by
  induction store with
  | nil => rfl
  | cons a l ih =>
    have hcons : setVerified (a :: l) code =
        (if a.verification_code == code then { a with verified := true }
         else a) :: setVerified l code := rfl
    by_cases h : a.verification_code = code
    · simp [lookupByCode, hcons, List.find?_cons, h]
    · simp only [lookupByCode] at ih
      simp [lookupByCode, hcons, List.find?_cons, h, ih]

/-- `setVerified` is idempotent. -/
theorem setVerified_idem (store : List EmailVerification) (code : String) :
    setVerified (setVerified store code) code = setVerified store code := by
  simp only [setVerified, List.map_map]
  apply List.map_congr_left
  intro r _
  by_cases h : r.verification_code = code <;> simp [h]

/-! ### Concrete fixtures for witnesses -/

/-- A user profile returned by the test IAM client. -/
def aliceProfile : UserProfile :=
  { emails := ["a@x.com"], firstName := "Alice", lastName := "A" }

/-- Collaborators where every call succeeds; `render` records the context
keys in its output so rendered mail exposes the context it was built
from. -/
def baseEnv : Env :=
  { register_user := fun _ _ _ _ _ => .ok true
    is_user_exist := fun _ => .ok true
    is_user_enabled := fun _ => .ok false
    enable_user := fun _ => .ok ()
    get_user := fun _ => .ok aliceProfile
    verify_email_template := .ok { subject := "vsub", body := "vbody" }
    new_user_email_template := .ok { subject := "nsub", body := "nbody" }
    send_email := fun _ => .ok ()
    render := fun t context =>
      t ++ "|" ++ String.intercalate "," (context.map (fun kv => kv.1))
    verification_uri := fun c => "https://host/auth/verify-email/" ++ c
    callback_uri := "https://host/auth/callback"
    urlquote := fun x => x
    authorization_url := fun base uri => (base ++ "?uri=" ++ uri, "state123")
    authenticate := .error
      ({ isObjectDoesNotExist := false, str := "state mismatch"
         messageAttr := none }) }

/-- Concrete Django settings for witnesses. -/
def testSettings : Settings :=
  { external_options :=
      [{ idp_alias := "cilogon", name := "CILogon" },
       { idp_alias := "github", name := "GitHub" }]
    PORTAL_TITLE := "Test Portal"
    GATEWAY_ID := "test-gateway"
    SERVER_EMAIL := "portal@x.com"
    ADMINS := [("Admin", "admin@x.com")]
    LOGIN_REDIRECT_URL := "/home"
    KEYCLOAK_CLIENT_ID := "cid"
    KEYCLOAK_AUTHORIZE_URL := "https://kc/auth" }

/-- One pending verification row. -/
def testStore : List EmailVerification :=
  [{ username := "alice", verification_code := "code123", verified := false }]

/-- The exception raised by a failing SMTP send: a Python 3 exception
object with no `message` attribute. -/
def smtpException : PyExc :=
  { isObjectDoesNotExist := false, str := "Connection refused"
    messageAttr := none }

/-- Collaborators where the e-mail send fails. -/
def failSendEnv : Env := { baseEnv with send_email := fun _ => .error smtpException }

/-- The exception raised by a failing `enable_user` call. -/
def iamDownException : PyExc :=
  { isObjectDoesNotExist := false, str := "IAM service unavailable"
    messageAttr := none }

/-- Collaborators where `enable_user` fails. -/
def failEnableEnv : Env :=
  { baseEnv with enable_user := fun _ => .error iamDownException }

/-- Collaborators where the user does not exist. -/
def noUserEnv : Env := { baseEnv with is_user_exist := fun _ => .ok false }

/-- Collaborators where the account is already enabled. -/
def enabledEnv : Env := { baseEnv with is_user_enabled := fun _ => .ok true }

/-- Collaborators where IAM registration reports failure. -/
def failRegisterEnv : Env :=
  { baseEnv with register_user := fun _ _ _ _ _ => .ok false }

/-! ### Claim theorems -/

/-- C1: when an inbound verification code matches no stored record,
`verify_email` mutates nothing, creates nothing, records the user-facing
resend message, and redirects to the resend-link page. -/
theorem verify_email_unknown_code (env : Env) (s : Settings)
    (domain : String) (store : List EmailVerification) (code : String)
    (h : lookupByCode store code = none) :
    (verify_email env s domain store code).store = store ∧
    (verify_email env s domain store code).enable_calls = [] ∧
    (verify_email env s domain store code).emails = [] ∧
    (verify_email env s domain store code).msgs =
      [Message.error verifyFailedResendMessage] ∧
    (verify_email env s domain store code).response =
      Response.redirect resendRoute := by
  simp [verify_email, h, verifyCatch]

/-- C1 witness: a code absent from the concrete store. -/
theorem verify_email_unknown_code_witness :
    (verify_email baseEnv testSettings "host" testStore "nope").store =
        testStore ∧
    (verify_email baseEnv testSettings "host" testStore "nope").enable_calls =
        [] ∧
    (verify_email baseEnv testSettings "host" testStore "nope").emails = [] ∧
    (verify_email baseEnv testSettings "host" testStore "nope").msgs =
      [Message.error verifyFailedResendMessage] ∧
    (verify_email baseEnv testSettings "host" testStore "nope").response =
      Response.redirect resendRoute :=
  verify_email_unknown_code baseEnv testSettings "host" testStore "nope"
    (by decide)

/-- C2: when the record is found and the IAM client reports the account
already enabled, `verify_email` never calls `enable_user`, sends no
admin e-mail, records the already-created message, and redirects to the
login page. -/
theorem verify_email_already_enabled (env : Env) (s : Settings)
    (domain : String) (store : List EmailVerification) (code : String)
    (row : EmailVerification)
    (hfound : lookupByCode store code = some row)
    (henabled : env.is_user_enabled row.username = .ok true) :
    (verify_email env s domain store code).enable_calls = [] ∧
    (verify_email env s domain store code).emails = [] ∧
    (verify_email env s domain store code).msgs =
      [Message.success alreadyCreatedMessage] ∧
    (verify_email env s domain store code).response =
      Response.redirect loginRoute := by
  simp [verify_email, hfound, henabled]

/-- C2 witness: the concrete store row with an already-enabled account. -/
theorem verify_email_already_enabled_witness :
    (verify_email enabledEnv testSettings "host" testStore "code123").enable_calls = [] ∧
    (verify_email enabledEnv testSettings "host" testStore "code123").emails = [] ∧
    (verify_email enabledEnv testSettings "host" testStore "code123").msgs =
      [Message.success alreadyCreatedMessage] ∧
    (verify_email enabledEnv testSettings "host" testStore "code123").response =
      Response.redirect loginRoute :=
  verify_email_already_enabled enabledEnv testSettings "host" testStore
    "code123"
    { username := "alice", verification_code := "code123", verified := false }
    (by decide) rfl

/-- C4: an `idp_alias` outside the configured external-provider list is
rejected before any authorization URL is constructed: the exception
escapes `redirect_login`, no redirect is produced and the session is
unchanged (no OAuth2 state or redirect URI stored). -/
theorem redirect_login_invalid_idp_alias (env : Env) (s : Settings)
    (session : Session) (idpAlias : String) (nextParam : Option String)
    (h : idpAlias ∉ s.external_options.map (fun ext => ext.idp_alias)) :
    (redirect_login env s session idpAlias nextParam).session = session ∧
    (redirect_login env s session idpAlias nextParam).response =
      Response.serverError invalidIdpAliasError ∧
    ∀ url, (redirect_login env s session idpAlias nextParam).response ≠
      Response.redirect url := by
  simp [redirect_login, validate_idp_alias, h]

/-- C4 witness: an alias not among the concrete configured providers. -/
theorem redirect_login_invalid_idp_alias_witness :
    (redirect_login baseEnv testSettings
        { oauth2_state := none, oauth2_redirect_uri := none } "evil"
        none).session =
      { oauth2_state := none, oauth2_redirect_uri := none } ∧
    (redirect_login baseEnv testSettings
        { oauth2_state := none, oauth2_redirect_uri := none } "evil"
        none).response = Response.serverError invalidIdpAliasError ∧
    ∀ url, (redirect_login baseEnv testSettings
        { oauth2_state := none, oauth2_redirect_uri := none } "evil"
        none).response ≠ Response.redirect url :=
  redirect_login_invalid_idp_alias baseEnv testSettings
    { oauth2_state := none, oauth2_redirect_uri := none } "evil" none
    (by decide)

/-- C6: when IAM registration reports failure, `create_account` attaches
the single error "Failed to register user with IAM service" (which
begins with the spec's quoted "Failed to register user") to the form and
does not proceed: no verification record is created and no e-mail is
sent. -/
theorem create_account_register_failure (env : Env) (s : Settings)
    (store : List EmailVerification)
    (freshCode username email first_name last_name password : String)
    (h : env.register_user username email first_name last_name password =
      .ok false) :
    (create_account env s store freshCode username email first_name
        last_name password).store = store ∧
    (create_account env s store freshCode username email first_name
        last_name password).emails = [] ∧
    (create_account env s store freshCode username email first_name
        last_name password).msgs = [] ∧
    (create_account env s store freshCode username email first_name
        last_name password).form_errors = [registerFailedError] ∧
    (∃ rest, registerFailedError = "Failed to register user" ++ rest) ∧
    (create_account env s store freshCode username email first_name
        last_name password).response =
      Response.page "django_airavata_auth/create_account.html" := by
  refine ⟨?_, ?_, ?_, ?_, ⟨" with IAM service", by decide⟩, ?_⟩ <;>
    simp [create_account, h]

/-- C6 witness: concrete registration that IAM rejects. -/
theorem create_account_register_failure_witness :
    (create_account failRegisterEnv testSettings [] "c1" "alice" "a@x.com"
        "Alice" "A" "pw").store = [] ∧
    (create_account failRegisterEnv testSettings [] "c1" "alice" "a@x.com"
        "Alice" "A" "pw").emails = [] ∧
    (create_account failRegisterEnv testSettings [] "c1" "alice" "a@x.com"
        "Alice" "A" "pw").msgs = [] ∧
    (create_account failRegisterEnv testSettings [] "c1" "alice" "a@x.com"
        "Alice" "A" "pw").form_errors = [registerFailedError] ∧
    (∃ rest, registerFailedError = "Failed to register user" ++ rest) ∧
    (create_account failRegisterEnv testSettings [] "c1" "alice" "a@x.com"
        "Alice" "A" "pw").response =
      Response.page "django_airavata_auth/create_account.html" :=
  create_account_register_failure failRegisterEnv testSettings [] "c1"
    "alice" "a@x.com" "Alice" "A" "pw" rfl

/-- C3: when the record is found and the account is not enabled,
`verify_email` persists the verified flag, calls `enable_user` exactly
once, fetches the profile, renders the new-user template with the
seven-key context (username, email, first_name, last_name, portal_title,
gateway_id, http_host), sends exactly one e-mail to the configured
administrator addresses, records the account-created message and
redirects to the login page. -/
theorem verify_email_enable_and_notify (env : Env) (s : Settings)
    (domain : String) (store : List EmailVerification) (code : String)
    (row : EmailVerification) (profile : UserProfile)
    (tmpl : EmailTemplate) (addr : String) (others : List String)
    (hfound : lookupByCode store code = some row)
    (henabled : env.is_user_enabled row.username = .ok false)
    (henable : env.enable_user row.username = .ok ())
    (hget : env.get_user row.username = .ok profile)
    (htmpl : env.new_user_email_template = .ok tmpl)
    (hemails : profile.emails = addr :: others)
    (hsend : env.send_email (new_user_admin_email env s
        (new_user_email_context s domain row.username addr
          profile.firstName profile.lastName) tmpl) = .ok ()) :
    (verify_email env s domain store code).store = setVerified store code ∧
    (∀ x ∈ (verify_email env s domain store code).store,
        x.verification_code = code → x.verified = true) ∧
    (verify_email env s domain store code).enable_calls = [row.username] ∧
    (verify_email env s domain store code).emails =
      [new_user_admin_email env s
        (new_user_email_context s domain row.username addr
          profile.firstName profile.lastName) tmpl] ∧
    (new_user_email_context s domain row.username addr profile.firstName
        profile.lastName).map (fun kv => kv.1) =
      ["username", "email", "first_name", "last_name", "portal_title",
       "gateway_id", "http_host"] ∧
    (new_user_admin_email env s (new_user_email_context s domain
        row.username addr profile.firstName profile.lastName)
        tmpl).to_addrs = s.ADMINS.map (fun a => a.2) ∧
    (verify_email env s domain store code).msgs =
      [Message.success accountCreatedMessage] ∧
    (verify_email env s domain store code).response =
      Response.redirect loginRoute := by
  have hs : (verify_email env s domain store code).store =
      setVerified store code := by
    simp [verify_email, hfound, henabled, henable, hget, htmpl, hemails,
      hsend]
  refine ⟨hs, ?_,
    by simp [verify_email, hfound, henabled, henable, hget, htmpl, hemails,
      hsend],
    by simp [verify_email, hfound, henabled, henable, hget, htmpl, hemails,
      hsend],
    by simp [new_user_email_context],
    by simp [new_user_admin_email],
    by simp [verify_email, hfound, henabled, henable, hget, htmpl, hemails,
      hsend],
    by simp [verify_email, hfound, henabled, henable, hget, htmpl, hemails,
      hsend]⟩
  rw [hs]
  exact fun x hx hc => setVerified_verified store code x hx hc

/-- C3 witness: the concrete pending row, with all collaborators
succeeding. -/
theorem verify_email_enable_and_notify_witness :
    (verify_email baseEnv testSettings "host" testStore
        "code123").enable_calls = ["alice"] ∧
    (verify_email baseEnv testSettings "host" testStore "code123").msgs =
      [Message.success accountCreatedMessage] ∧
    (verify_email baseEnv testSettings "host" testStore "code123").response =
      Response.redirect loginRoute :=
  ⟨(verify_email_enable_and_notify baseEnv testSettings "host" testStore
      "code123"
      { username := "alice", verification_code := "code123", verified := false }
      aliceProfile { subject := "nsub", body := "nbody" } "a@x.com" []
      (by decide) rfl rfl rfl rfl rfl rfl).2.2.1,
   (verify_email_enable_and_notify baseEnv testSettings "host" testStore
      "code123"
      { username := "alice", verification_code := "code123", verified := false }
      aliceProfile { subject := "nsub", body := "nbody" } "a@x.com" []
      (by decide) rfl rfl rfl rfl rfl rfl).2.2.2.2.2.2.1,
   (verify_email_enable_and_notify baseEnv testSettings "host" testStore
      "code123"
      { username := "alice", verification_code := "code123", verified := false }
      aliceProfile { subject := "nsub", body := "nbody" } "a@x.com" []
      (by decide) rfl rfl rfl rfl rfl rfl).2.2.2.2.2.2.2⟩

/-- C5 counterexample: on a concrete successful registration the
verify-email template is rendered with context keys
`username,email,first_name,last_name,portal_title,url` — there is no
`verification_url` key.  `baseEnv.render` records the keys of the
context it was handed in the rendered subject, so the dispatched e-mail
exposes them. -/
theorem create_account_context_keys_counterexample :
    (create_account baseEnv testSettings [] "c1" "alice" "a@x.com" "Alice"
        "A" "pw").emails.map (fun m => m.subject) =
      ["vsub|username,email,first_name,last_name,portal_title,url"] ∧
    ((verify_email_link_context testSettings "alice" "a@x.com" "Alice" "A"
        (baseEnv.verification_uri "c1")).map
        (fun kv => kv.1)).contains "verification_url" = false := by
  decide

/-- C5 (amended: the context key holding the verification link is `url`,
not `verification_url`): a registration that IAM reports successful
creates exactly one record for the username with a fresh code and
`verified=false`, renders the verify-email template with context keys
(username, email, first_name, last_name, portal_title, url) and sends
exactly one e-mail to the new user's address. -/
theorem create_account_success (env : Env) (s : Settings)
    (store : List EmailVerification)
    (freshCode username email first_name last_name password : String)
    (tmpl : EmailTemplate)
    (hreg : env.register_user username email first_name last_name password =
      .ok true)
    (htmpl : env.verify_email_template = .ok tmpl)
    (hsend : env.send_email (verify_link_email env s
        (verify_email_link_context s username email first_name last_name
          (env.verification_uri freshCode)) tmpl first_name last_name
        email) = .ok ())
    (hfresh : freshCode ∉ store.map (fun r => r.verification_code)) :
    (create_account env s store freshCode username email first_name
        last_name password).store =
      store ++ [{ username := username, verification_code := freshCode,
                  verified := false }] ∧
    (create_account env s store freshCode username email first_name
        last_name password).store.filter
        (fun x => x.verification_code == freshCode) =
      [{ username := username, verification_code := freshCode,
         verified := false }] ∧
    (create_account env s store freshCode username email first_name
        last_name password).emails =
      [verify_link_email env s
        (verify_email_link_context s username email first_name last_name
          (env.verification_uri freshCode)) tmpl first_name last_name
        email] ∧
    (verify_link_email env s
        (verify_email_link_context s username email first_name last_name
          (env.verification_uri freshCode)) tmpl first_name last_name
        email).to_addrs =
      [first_name ++ " " ++ last_name ++ " <" ++ email ++ ">"] ∧
    (verify_email_link_context s username email first_name last_name
        (env.verification_uri freshCode)).map (fun kv => kv.1) =
      ["username", "email", "first_name", "last_name", "portal_title",
       "url"] ∧
    (create_account env s store freshCode username email first_name
        last_name password).msgs =
      [Message.success accountRequestProcessedMessage] ∧
    (create_account env s store freshCode username email first_name
        last_name password).response =
      Response.redirect createAccountRoute := by
  have hnew : (create_account env s store freshCode username email
      first_name last_name password).store =
      store ++ [{ username := username, verification_code := freshCode,
                  verified := false }] := by
    simp [create_account, create_and_send_email_verification_link, hreg,
      htmpl, hsend]
  refine ⟨hnew, ?_,
    by simp [create_account, create_and_send_email_verification_link, hreg,
      htmpl, hsend],
    by simp [verify_link_email],
    by simp [verify_email_link_context],
    by simp [create_account, create_and_send_email_verification_link, hreg,
      htmpl, hsend],
    by simp [create_account, create_and_send_email_verification_link, hreg,
      htmpl, hsend]⟩
  rw [hnew, List.filter_append]
  have h1 : store.filter (fun x => x.verification_code == freshCode) = [] := by
    rw [List.filter_eq_nil_iff]
    intro a ha hpa
    exact hfresh (List.mem_map.mpr ⟨a, ha, by simpa using hpa⟩)
  rw [h1]
  simp

/-- C5 witness: one successful concrete registration on top of the
concrete store. -/
theorem create_account_success_witness :
    (create_account baseEnv testSettings testStore "c9" "alice" "a@x.com"
        "Alice" "A" "pw").store =
      testStore ++ [{ username := "alice", verification_code := "c9",
                      verified := false }] ∧
    (create_account baseEnv testSettings testStore "c9" "alice" "a@x.com"
        "Alice" "A" "pw").msgs =
      [Message.success accountRequestProcessedMessage] :=
  ⟨(create_account_success baseEnv testSettings testStore "c9" "alice"
      "a@x.com" "Alice" "A" "pw" { subject := "vsub", body := "vbody" }
      rfl rfl rfl (by decide)).1,
   (create_account_success baseEnv testSettings testStore "c9" "alice"
      "a@x.com" "Alice" "A" "pw" { subject := "vsub", body := "vbody" }
      rfl rfl rfl (by decide)).2.2.2.2.2.1⟩

/-- C7 (code bug): after a successful disabled-account creation, an
exception during the e-mail step is caught by `except Exception as e`,
but that handler evaluates `e.message`; on a Python 3 exception with no
`message` attribute (here an SMTP failure) this raises `AttributeError`,
so the request ends in a server error and no failure message reaches the
form.  The record saved before the raise is kept and no compensating
IAM call is made. -/
theorem create_account_exception_message_bug :
    (create_account failSendEnv testSettings [] "c1" "alice" "a@x.com"
        "Alice" "A" "pw").response = Response.serverError attributeError ∧
    (create_account failSendEnv testSettings [] "c1" "alice" "a@x.com"
        "Alice" "A" "pw").form_errors = [] ∧
    (create_account failSendEnv testSettings [] "c1" "alice" "a@x.com"
        "Alice" "A" "pw").msgs = [] ∧
    (create_account failSendEnv testSettings [] "c1" "alice" "a@x.com"
        "Alice" "A" "pw").register_calls = ["alice"] ∧
    (create_account failSendEnv testSettings [] "c1" "alice" "a@x.com"
        "Alice" "A" "pw").store =
      [{ username := "alice", verification_code := "c1",
         verified := false }] := by
  decide

/-- C9: when the record is found and any step of the enable/notify stage
fails with an exception other than `ObjectDoesNotExist`, `verify_email`
records the generic retry-later message and redirects to the
create-account page, and the record remains persisted with
`verified=true` — so a retry finds the verified row and step 2 is a
no-op (the store is a fixed point of `setVerified`). -/
theorem verify_email_step3_failure (env : Env) (s : Settings)
    (domain : String) (store : List EmailVerification) (code : String)
    (row : EmailVerification)
    (hfound : lookupByCode store code = some row)
    (hfail :
      (∃ e, env.is_user_enabled row.username = .error e ∧
        e.isObjectDoesNotExist = false) ∨
      (env.is_user_enabled row.username = .ok false ∧
        ((∃ e, env.enable_user row.username = .error e ∧
            e.isObjectDoesNotExist = false) ∨
         (env.enable_user row.username = .ok () ∧
           ((∃ e, env.get_user row.username = .error e ∧
               e.isObjectDoesNotExist = false) ∨
            (∃ p, env.get_user row.username = .ok p ∧
              ((∃ e, env.new_user_email_template = .error e ∧
                  e.isObjectDoesNotExist = false) ∨
               (∃ t, env.new_user_email_template = .ok t ∧
                 (p.emails = [] ∨
                  (∃ a others, p.emails = a :: others ∧
                    ∃ e, env.send_email (new_user_admin_email env s
                        (new_user_email_context s domain row.username a
                          p.firstName p.lastName) t) = .error e ∧
                      e.isObjectDoesNotExist = false)))))))))) :
    (verify_email env s domain store code).store = setVerified store code ∧
    (∀ x ∈ (verify_email env s domain store code).store,
        x.verification_code = code → x.verified = true) ∧
    (verify_email env s domain store code).msgs =
      [Message.error verifyFailedRetryMessage] ∧
    (verify_email env s domain store code).response =
      Response.redirect createAccountRoute ∧
    setVerified (verify_email env s domain store code).store code =
      (verify_email env s domain store code).store ∧
    lookupByCode (verify_email env s domain store code).store code =
      some { row with verified := true } := by
  suffices h : ∃ cs e, e.isObjectDoesNotExist = false ∧
      verify_email env s domain store code =
        verifyCatch (setVerified store code) cs [] e by
    obtain ⟨cs, e, he, hrun⟩ := h
    rw [hrun]
    unfold verifyCatch
    rw [if_neg (by simp [he])]
    refine ⟨rfl, ?_, rfl, rfl, setVerified_idem store code, ?_⟩
    · exact fun x hx hc => setVerified_verified store code x hx hc
    · rw [lookupByCode_setVerified, hfound]
      rfl
  rcases hfail with ⟨e, h1, he⟩ | ⟨h1, hrest⟩
  · exact ⟨[], e, he, by simp [verify_email, hfound, h1]⟩
  rcases hrest with ⟨e, h2, he⟩ | ⟨h2, hrest⟩
  · exact ⟨[row.username], e, he, by simp [verify_email, hfound, h1, h2]⟩
  rcases hrest with ⟨e, h3, he⟩ | ⟨p, h3, hrest⟩
  · exact ⟨[row.username], e, he,
      by simp [verify_email, hfound, h1, h2, h3]⟩
  rcases hrest with ⟨e, h4, he⟩ | ⟨t, h4, hrest⟩
  · exact ⟨[row.username], e, he,
      by simp [verify_email, hfound, h1, h2, h3, h4]⟩
  rcases hrest with hnil | ⟨a, others, hemails, e, h5, he⟩
  · exact ⟨[row.username], indexError, rfl,
      by simp [verify_email, hfound, h1, h2, h3, h4, hnil]⟩
  · exact ⟨[row.username], e, he,
      by simp [verify_email, hfound, h1, h2, h3, h4, hemails, h5]⟩

/-- C9 witness: the enable call fails on the concrete pending row. -/
theorem verify_email_step3_failure_witness :
    (verify_email failEnableEnv testSettings "host" testStore
        "code123").msgs = [Message.error verifyFailedRetryMessage] ∧
    lookupByCode (verify_email failEnableEnv testSettings "host" testStore
        "code123").store "code123" =
      some { username := "alice", verification_code := "code123",
             verified := true } :=
  ⟨(verify_email_step3_failure failEnableEnv testSettings "host" testStore
      "code123"
      { username := "alice", verification_code := "code123", verified := false }
      (by decide)
      (Or.inr ⟨rfl, Or.inl ⟨iamDownException, rfl, rfl⟩⟩)).2.2.1,
   (verify_email_step3_failure failEnableEnv testSettings "host" testStore
      "code123"
      { username := "alice", verification_code := "code123", verified := false }
      (by decide)
      (Or.inr ⟨rfl, Or.inl ⟨iamDownException, rfl, rfl⟩⟩)).2.2.2.2.2⟩

/-- C10: every failing OAuth2 callback with a valid `idp_alias`
redirects to that alias's error page, and the options the error page
renders are exactly the configured external entries whose alias matches
— never the full provider list when another alias is configured. -/
theorem callback_failure_scoped_options (env : Env) (s : Settings)
    (idpAlias : String) (nextParam : Option String)
    (hfail : (∃ e, env.authenticate = .error e) ∨
      env.authenticate = .ok none)
    (hvalid : idpAlias ∈ s.external_options.map (fun ext => ext.idp_alias)) :
    (callback env s (some idpAlias) nextParam).response =
      Response.redirect (callbackErrorRoute idpAlias) ∧
    callback_error s idpAlias =
      .ok { idp_alias := idpAlias
            options_external := s.external_options.filter
              (fun ext => ext.idp_alias == idpAlias) } ∧
    (∀ o ∈ s.external_options.filter (fun ext => ext.idp_alias == idpAlias),
        o.idp_alias = idpAlias) ∧
    ((∃ o ∈ s.external_options, o.idp_alias ≠ idpAlias) →
      s.external_options.filter (fun ext => ext.idp_alias == idpAlias) ≠
        s.external_options) := by
  refine ⟨?_, ?_, ?_, ?_⟩
  · rcases hfail with ⟨e, he⟩ | hnone
    · simp [callback, he]
    · simp [callback, hnone]
  · simp [callback_error, validate_idp_alias, hvalid]
  · intro o ho
    simpa using (List.mem_filter.mp ho).2
  · rintro ⟨o, hmem, hne⟩ heq
    exact hne (by simpa using List.filter_eq_self.mp heq o hmem)

/-- C10 witness: the concrete two-provider configuration with a failing
callback for the first alias. -/
theorem callback_failure_scoped_options_witness :
    (callback baseEnv testSettings (some "cilogon") none).response =
      Response.redirect (callbackErrorRoute "cilogon") ∧
    callback_error testSettings "cilogon" =
      .ok { idp_alias := "cilogon"
            options_external := testSettings.external_options.filter
              (fun ext => ext.idp_alias == "cilogon") } ∧
    ((∃ o ∈ testSettings.external_options, o.idp_alias ≠ "cilogon") →
      testSettings.external_options.filter
          (fun ext => ext.idp_alias == "cilogon") ≠
        testSettings.external_options) :=
  ⟨(callback_failure_scoped_options baseEnv testSettings "cilogon" none
      (Or.inl ⟨_, rfl⟩) (by decide)).1,
   (callback_failure_scoped_options baseEnv testSettings "cilogon" none
      (Or.inl ⟨_, rfl⟩) (by decide)).2.1,
   (callback_failure_scoped_options baseEnv testSettings "cilogon" none
      (Or.inl ⟨_, rfl⟩) (by decide)).2.2.2⟩

/-- C8: when the IAM client reports the username does not exist, the
resend handler records a user-facing error and has no side effects: the
store is unchanged and no e-mail is sent. -/
theorem resend_email_link_nonexistent_user (env : Env) (s : Settings)
    (store : List EmailVerification) (freshCode username : String)
    (h : env.is_user_exist username = .ok false) :
    (resend_email_link env s store freshCode username).store = store ∧
    (resend_email_link env s store freshCode username).emails = [] ∧
    (resend_email_link env s store freshCode username).msgs =
      [Message.error resendUserNotFoundError] ∧
    (resend_email_link env s store freshCode username).form_errors = [] ∧
    (resend_email_link env s store freshCode username).response =
      Response.redirect resendRoute := by
  simp [resend_email_link, h]

/-- C8 witness: a concrete nonexistent username. -/
theorem resend_email_link_nonexistent_user_witness :
    (resend_email_link noUserEnv testSettings testStore "c2" "bob").store =
      testStore ∧
    (resend_email_link noUserEnv testSettings testStore "c2" "bob").emails =
      [] ∧
    (resend_email_link noUserEnv testSettings testStore "c2" "bob").msgs =
      [Message.error resendUserNotFoundError] ∧
    (resend_email_link noUserEnv testSettings testStore "c2" "bob").form_errors = [] ∧
    (resend_email_link noUserEnv testSettings testStore "c2" "bob").response =
      Response.redirect resendRoute :=
  resend_email_link_nonexistent_user noUserEnv testSettings testStore "c2"
    "bob" rfl

end AiravataAuth
